import Mathlib

/-!
Shallow embedding of the ebay-manager backend (digiwise-automations/ebay-manager).

Conventions used throughout:
* Python dicts are embedded as association lists `List (String × Value)` over a
  JSON-like inductive `Value`; dict literals in the source are written with the
  same keys in the same order.
* Python floats (prices) are embedded as rationals: every comparison the code
  performs on them (`gt=0`) is exact, so no rounding behaviour is lost.
* Fallible Python code (statements that can raise) is embedded with
  `Except String`; a `KeyError` raised by a mandatory subscript
  `d[k]` is rendered as the error string `"KeyError: " ++ k`.
* External collaborators (the eBay SDK, the LLM runtime) are embedded as
  explicit parameters or as a small `Market` state model that follows the
  boundary contract stated in the spec (section 6).
-/

/-- JSON-like runtime values, the embedding of Python objects that flow
through the handlers (strings, numbers, booleans, lists, dicts, None). -/
inductive Value where
  | vNull : Value
  | vBool : Bool → Value
  | vStr : String → Value
  | vInt : Int → Value
  | vRat : Rat → Value
  | vList : List Value → Value
  | vDict : List (String × Value) → Value

/-- Embedding of a Python dict: an association list with string keys. -/
abbrev Dict := List (String × Value)

/-- Embedding of Python dict lookup `d[k]` as a partial operation: the first
binding of the key, if any. Source dict literals never repeat a key, so this
is the Python semantics. -/
def dlookup : Dict → String → Option Value
  | [], _ => none
  | (k2, v) :: rest, k => if k2 = k then some v else dlookup rest k

/-- Embedding of `d.get(k, default)`. -/
def dgetD (d : Dict) (k : String) (dflt : Value) : Value :=
  (dlookup d k).getD dflt

/-- Embedding of a mandatory subscript `d[k]`, which raises `KeyError` when
the key is absent. -/
def dgetE (d : Dict) (k : String) : Except String Value :=
  match dlookup d k with
  | some v => .ok v
  | none => .error ("KeyError: " ++ k)

/-- Embedding of `v.get(k, default)` on a value known to be used as a dict in
the source; only dict values reach this helper on the embedded code paths. -/
def pyGetD (v : Value) (k : String) (dflt : Value) : Value :=
  match v with
  | .vDict d => dgetD d k dflt
  | _ => dflt

/-- Embedding of Python `float(x)` on the values the service code feeds it. -/
def pyFloat : Value → Except String Rat
  | .vRat q => .ok q
  | .vInt n => .ok (n : Rat)
  | .vBool b => .ok (if b then 1 else 0)
  | _ => .error "TypeError: float() argument"

/-- Embedding of Python `int(x)` on the values the service code feeds it. -/
def pyInt : Value → Except String Int
  | .vInt n => .ok n
  | .vBool b => .ok (if b then 1 else 0)
  | _ => .error "TypeError: int() argument"

/-- Shallow `str(x)` used only to interpolate error payloads into messages. -/
def pyStr : Value → String
  | .vStr s => s
  | .vInt n => toString n
  | .vRat q => toString q
  | .vBool b => if b then "True" else "False"
  | .vNull => "None"
  | .vList _ => "<list>"
  | .vDict _ => "<dict>"

/-- Shared `{success: False, error: str(e), message: ...}` failure envelope
built by every `except` branch of the agent tool handlers
(`backend/agents/ebay_agent.py`). -/
def failEnvelope (e : String) (message : String) : Dict :=
  [("success", .vBool false), ("error", .vStr e), ("message", .vStr message)]

/-! ## Bulk operations (`ebay_agent.bulk_update`, `mcp/server._bulk_operations`) -/

/-- Per-id entry appended by the `bulk_update` loop: the try-branch appends
`{listing_id, success: True}`, the except-branch `{listing_id, success: False,
error: str(e)}` (`ebay_agent.py` lines 205-220). -/
def bulkItemResult (listing_id : String) (r : Except String Value) : Value :=
  match r with
  | .ok _ => .vDict [("listing_id", .vStr listing_id), ("success", .vBool true)]
  | .error e =>
      .vDict [("listing_id", .vStr listing_id), ("success", .vBool false), ("error", .vStr e)]

/-- The `results` list accumulated by the sequential per-id loop of
`bulk_update`; `upd` stands for `ebay_service.update_listing(listing_id,
updates)` with the `updates` argument fixed, returning normally or raising. -/
def bulkResults (listing_ids : List String) (upd : String → Except String Value) : List Value :=
  listing_ids.map (fun listing_id => bulkItemResult listing_id (upd listing_id))

/-- Embedding of `success_count = sum(1 for r in results if r["success"])`. -/
def entrySuccess (v : Value) : Bool :=
  match v with
  | .vDict d =>
      match dlookup d "success" with
      | some (.vBool b) => b
      | _ => false
  | _ => false

/-- Embedding of the count of successful per-id results in `bulk_update`. -/
def succCount (listing_ids : List String) (upd : String → Except String Value) : Nat :=
  (bulkResults listing_ids upd).countP entrySuccess

/-- Embedding of the `bulk_update` tool handler (`ebay_agent.py` lines
199-231): sequential per-id loop, per-id try/except, and the summary dict it
returns. -/
def bulkUpdate (listing_ids : List String) (upd : String → Except String Value) : Dict :=
  let results := bulkResults listing_ids upd
  let success_count := (bulkResults listing_ids upd).countP entrySuccess
  let total := listing_ids.length
  [("success", .vBool (decide (0 < success_count))),
   ("total", .vInt total),
   ("successful", .vInt success_count),
   ("failed", .vInt (total - success_count)),
   ("results", .vList results),
   ("message", .vStr s!"Updated {success_count} of {total} listings")]

/-- Embedding of `_bulk_operations` (`mcp/server.py` lines 246-296): the
`update` branch delegates to the agent `bulk_update` tool and returns its
result unchanged; the `delete` and `relist` branches run per-id loops whose
try-bodies only append `{listing_id, success: True}` (the delete/relist logic
is an unimplemented comment), then fall through to the final
`{operation, total, results}` return, which lacks `successful`/`failed`. -/
def bulkOperations (operation : String) (listing_ids : List String)
    (upd : String → Except String Value) : Dict :=
  if operation = "update" then bulkUpdate listing_ids upd
  else
    let results :=
      if operation = "delete" then
        listing_ids.map (fun listing_id =>
          Value.vDict [("listing_id", .vStr listing_id), ("success", .vBool true)])
      else if operation = "relist" then
        listing_ids.map (fun listing_id =>
          Value.vDict [("listing_id", .vStr listing_id), ("success", .vBool true)])
      else []
    [("operation", .vStr operation),
     ("total", .vInt listing_ids.length),
     ("results", .vList results)]

/-- The per-id result list carried under the `results` key of a bulk report. -/
def resultEntries (d : Dict) : List Value :=
  match dlookup d "results" with
  | some (.vList xs) => xs
  | _ => []

/-- The `listing_id` string carried by a per-id result entry. -/
def entryListingId (v : Value) : Option String :=
  match v with
  | .vDict d =>
      match dlookup d "listing_id" with
      | some (.vStr s) => some s
      | _ => none
  | _ => none

/-! ## Tool dispatch (`mcp/server.py`) -/

/-- Embedding of an MCP `CallToolRequest`: a tool name and its arguments. -/
structure CallToolRequest where
  name : String
  arguments : Dict

/-- Embedding of an MCP `ToolResult`: `content` stands for the single
`TextContent` block (the JSON payload is kept as a structured value instead
of its serialized text), `is_error` for the MCP error flag, which defaults to
`False` when the success branch omits it. -/
structure ToolResult where
  content : Value
  is_error : Bool

/-- The keys of the `self.tools` registry built in `EbayMCPServer.__init__`
(`mcp/server.py` lines 26-134), in source order. -/
def registeredToolNames : List String :=
  ["create_listing", "update_listing", "search_listings", "analyze_listing",
   "bulk_operations", "generate_report", "ai_assistant"]

/-- The seven private tool handlers `handle_call_tool` dispatches to, as
abstract fallible functions (each one performs external SDK and database
calls; their observable outcome is a result dict or a raised exception). -/
structure HandlerEnv where
  createListingH : Dict → Except String Dict
  updateListingH : Dict → Except String Dict
  searchListingsH : Dict → Except String Dict
  analyzeListingH : Dict → Except String Dict
  bulkOperationsH : Dict → Except String Dict
  generateReportH : Dict → Except String Dict
  aiAssistantH : Dict → Except String Dict

/-- Embedding of `EbayMCPServer.handle_call_tool` (`mcp/server.py` lines
140-181): the if/elif dispatch on the tool name inside a try block whose
unknown-name branch raises `ValueError(f"Unknown tool: {tool_name}")`; the
except branch turns any exception into a ToolResult with `is_error=True`
carrying `{error, tool, timestamp}`. `ts` stands for
`datetime.now().isoformat()`. -/
def handleCallTool (env : HandlerEnv) (ts : String) (request : CallToolRequest) : ToolResult :=
  let tool_name := request.name
  let arguments := request.arguments
  let dispatched : Except String Dict :=
    if tool_name = "create_listing" then env.createListingH arguments
    else if tool_name = "update_listing" then env.updateListingH arguments
    else if tool_name = "search_listings" then env.searchListingsH arguments
    else if tool_name = "analyze_listing" then env.analyzeListingH arguments
    else if tool_name = "bulk_operations" then env.bulkOperationsH arguments
    else if tool_name = "generate_report" then env.generateReportH arguments
    else if tool_name = "ai_assistant" then env.aiAssistantH arguments
    else .error ("Unknown tool: " ++ tool_name)
  match dispatched with
  | .ok result => { content := .vDict result, is_error := false }
  | .error e =>
      { content := .vDict [("error", .vStr e), ("tool", .vStr tool_name), ("timestamp", .vStr ts)],
        is_error := true }

/-- A concrete handler environment whose handlers all return an empty dict;
used to instantiate dispatch theorems on closed inputs. -/
def trivialEnv : HandlerEnv :=
  ⟨fun _ => .ok [], fun _ => .ok [], fun _ => .ok [], fun _ => .ok [],
   fun _ => .ok [], fun _ => .ok [], fun _ => .ok []⟩

/-- Embedding of `_ai_assistant` (`mcp/server.py` lines 315-331): reads the
mandatory `query` argument and the optional `context`, forwards the query to
the LLM agent (`respond`, standing for `ebay_agent.process_request` with the
context-prefixing of the prompt folded in), and returns
`{query, response, timestamp}` — no `success` and no `message` key; an
exception from the agent propagates out of the handler. -/
def aiAssistant (respond : Value → Except String String) (ts : String) (args : Dict) :
    Except String Dict := do
  let query ← dgetE args "query"
  let _context := dgetD args "context" (.vDict [])
  let response ← respond query
  .ok [("query", query), ("response", .vStr response), ("timestamp", .vStr ts)]

/-! ## Search merge (`ebay_agent._merge_listings`, `search_listings`) -/

/-- Embedding of `_merge_listings` (`ebay_agent.py` lines 324-327): despite
the docstring, the body is `return ebay + local` — plain concatenation, no
deduplication. -/
def mergeListings (ebay : List Dict) (localResults : List Dict) : List Dict :=
  ebay ++ localResults

/-- Embedding of the `search_listings` tool handler (`ebay_agent.py` lines
130-156): queries the marketplace first, then the local database (each call
may raise, embedded as the two `Except` arguments), merges with
`_merge_listings`, and wraps the merged list in the success envelope. -/
def agentSearchListings (ebayResults : Except String (List Dict))
    (localResults : Except String (List Dict)) : Dict :=
  match ebayResults with
  | .error e => failEnvelope e "Search failed"
  | .ok ebay =>
      match localResults with
      | .error e => failEnvelope e "Search failed"
      | .ok localL =>
          let all_listings := mergeListings ebay localL
          let n := all_listings.length
          [("success", .vBool true),
           ("count", .vInt n),
           ("listings", .vList (all_listings.map .vDict)),
           ("message", .vStr s!"Found {n} listings")]

/-! ## Listing payloads and boundary validation (`models/schemas.py`,
`agents/ebay_agent.ListingDetails`) -/

/-- The fields of a listing-creation payload, before validation. Prices are
embedded as rationals (see the header note). -/
structure ListingPayload where
  title : String
  description : String
  price : Rat
  quantity : Int
  category_id : String
  condition : String
  images : List String
  item_specifics : List (String × String)
  shipping_options : List Dict

/-- Embedding of `validated.dict()`: the keyword-to-value dict a pydantic
`ListingDetails` model serializes to, with the field order of the model. -/
def ListingPayload.toDict (p : ListingPayload) : Dict :=
  [("title", .vStr p.title),
   ("description", .vStr p.description),
   ("price", .vRat p.price),
   ("quantity", .vInt p.quantity),
   ("category_id", .vStr p.category_id),
   ("condition", .vStr p.condition),
   ("images", .vList (p.images.map .vStr)),
   ("item_specifics", .vDict (p.item_specifics.map (fun kv => (kv.1, Value.vStr kv.2)))),
   ("shipping_options", .vList (p.shipping_options.map .vDict))]

/-- The members of the `ItemCondition` enum (`models/schemas.py` lines 13-19). -/
def itemConditionValues : List String :=
  ["New", "Like New", "Very Good", "Good", "Acceptable", "For parts or not working"]

/-- Embedding of pydantic validation of `ListingCreate` (`models/schemas.py`
lines 33-47): `title` 1..80 chars, `description` min length 1, `price` gt 0,
`quantity` ge 0, `condition` a member of `ItemCondition`, at most 12 images.
(The `HttpUrl` format check on each image is not modelled; it constrains no
claim.) Validation failure raises before any handler body runs. -/
def validateListingCreate (p : ListingPayload) : Except String ListingPayload :=
  if p.title.length < 1 then .error "title: ensure this value has at least 1 characters"
  else if 80 < p.title.length then .error "title: ensure this value has at most 80 characters"
  else if p.description.length < 1 then .error "description: ensure this value has at least 1 characters"
  else if p.price ≤ 0 then .error "price: ensure this value is greater than 0"
  else if p.quantity < 0 then .error "quantity: ensure this value is greater than or equal to 0"
  else if ¬ itemConditionValues.contains p.condition then .error "condition: value is not a valid enumeration member"
  else if 12 < p.images.length then .error "images: ensure this value has at most 12 items"
  else .ok p

/-- Embedding of pydantic validation of the agent-side `ListingDetails` model
(`agents/ebay_agent.py` lines 9-18): `price` gt 0 and `quantity` ge 0 are the
only value constraints. -/
def validateListingDetails (p : ListingPayload) : Except String ListingPayload :=
  if p.price ≤ 0 then .error "price: ensure this value is greater than 0"
  else if p.quantity < 0 then .error "quantity: ensure this value is greater than or equal to 0"
  else .ok p

/-! ## Marketplace adapter (`services/ebay_service.py`) and external market model -/

/-- Observable external side effects of a listing-creation flow: the
marketplace `AddItem` call and the database insert. -/
inductive Effect where
  | marketplaceCreate : Dict → Effect
  | dbStore : Dict → Effect

/-- Embedding of `_get_condition_id` (`ebay_service.py` lines 260-270): the
fixed condition-name lookup table with default 1000. -/
def getConditionId (condition : Value) : Int :=
  match condition with
  | .vStr "New" => 1000
  | .vStr "Like New" => 1500
  | .vStr "Very Good" => 2000
  | .vStr "Good" => 3000
  | .vStr "Acceptable" => 4000
  | .vStr "For parts or not working" => 7000
  | _ => 1000

/-- Embedding of one shipping service option built by
`_prepare_shipping_details` for the option at index `idx`. -/
def shippingService (idx : Nat) (option : Value) : Value :=
  .vDict [("ShippingService", pyGetD option "service" (.vStr "USPSPriority")),
          ("ShippingServiceCost", pyGetD option "cost" (.vInt 0)),
          ("ShippingServicePriority", .vInt (idx + 1)),
          ("FreeShipping", pyGetD option "free_shipping" (.vBool false))]

/-- Embedding of `_prepare_shipping_details` (`ebay_service.py` lines
272-288). -/
def prepareShippingDetails (shipping_options : List Value) : Value :=
  .vDict [("ShippingType", .vStr "Flat"),
          ("ShippingServiceOptions",
           .vList (shipping_options.enum.map (fun iv => shippingService iv.1 iv.2)))]

/-- Embedding of `_prepare_item_specifics` (`ebay_service.py` lines 290-300):
an empty specifics dict yields `{}`. -/
def prepareItemSpecifics (specifics : Value) : Value :=
  match specifics with
  | .vDict kvs =>
      if kvs.isEmpty then .vDict []
      else .vDict [("NameValueList",
        .vList (kvs.map (fun kv => Value.vDict [("Name", .vStr kv.1), ("Value", kv.2)])))]
  | _ => .vDict []

/-- Embedding of the `item` request dict built by `EbayService.create_listing`
(`ebay_service.py` lines 47-78); the inner `Item` dict is returned. The
mandatory subscripts on `listing_data` can raise `KeyError`, in source order. -/
def buildItem (listing_data : Dict) : Except String Dict := do
  let title ← dgetE listing_data "title"
  let description ← dgetE listing_data "description"
  let category_id ← dgetE listing_data "category_id"
  let price ← dgetE listing_data "price"
  let quantity ← dgetE listing_data "quantity"
  let condition ← dgetE listing_data "condition"
  let images := dgetD listing_data "images" (.vList [])
  let shipping :=
    match dgetD listing_data "shipping_options" (.vList []) with
    | .vList xs => xs
    | _ => []
  let specifics := dgetD listing_data "item_specifics" (.vDict [])
  .ok [("Title", title),
       ("Description", description),
       ("PrimaryCategory", .vDict [("CategoryID", category_id)]),
       ("StartPrice", price),
       ("Quantity", quantity),
       ("ConditionID", .vInt (getConditionId condition)),
       ("Country", .vStr "US"),
       ("Currency", .vStr "USD"),
       ("DispatchTimeMax", .vInt 3),
       ("ListingDuration", .vStr "Days_7"),
       ("ListingType", .vStr "FixedPriceItem"),
       ("PaymentMethods", .vList [.vStr "PayPal"]),
       ("PayPalEmailAddress", .vStr "your-paypal@email.com"),
       ("PictureDetails", .vDict [("PictureURL", images)]),
       ("ReturnPolicy", .vDict [("ReturnsAcceptedOption", .vStr "ReturnsAccepted"),
                                ("RefundOption", .vStr "MoneyBack"),
                                ("ReturnsWithinOption", .vStr "Days_30"),
                                ("ShippingCostPaidByOption", .vStr "Buyer")]),
       ("ShippingDetails", prepareShippingDetails shipping),
       ("ItemSpecifics", prepareItemSpecifics specifics)]

/-- Model of the external eBay marketplace, per the boundary contract of
spec section 6: `AddItem` acknowledges with `Ack` and an `ItemID` (or an
error list), `GetItem` serves back the stored item fields. `accept` selects
whether the marketplace acknowledges creations with `Ack == Success`;
`nextId` is the item id it will assign next. -/
structure Market where
  store : List (String × Dict)
  nextId : String
  accept : Bool

/-- Key lookup in the marketplace item store. -/
def storeLookup : List (String × Dict) → String → Option Dict
  | [], _ => none
  | (k2, v) :: rest, k => if k2 = k then some v else storeLookup rest k

/-- Model of the `AddItem` trading call: on acceptance the item is stored
under a fresh id and the response dict carries `Ack = Success`, the `ItemID`
and a `Fees` structure; otherwise `Ack = Failure` with an error list. -/
def Market.addItem (m : Market) (item : Dict) : Market × Dict :=
  if m.accept then
    (⟨(m.nextId, item) :: m.store, m.nextId ++ "0", m.accept⟩,
     [("Ack", .vStr "Success"), ("ItemID", .vStr m.nextId), ("Fees", .vDict [])])
  else
    (m, [("Ack", .vStr "Failure"), ("Errors", .vStr "marketplace rejected the item")])

/-- Marketplace view of a stored item as returned by `GetItem`: the stored
request fields plus the assigned `ItemID`, with `StartPrice` wrapped in the
money structure whose `value` field `_parse_listing` reads. -/
def marketItemView (itemId : String) (item : Dict) : Dict :=
  ("ItemID", .vStr itemId) ::
    item.map (fun kv => if kv.1 = "StartPrice" then (kv.1, Value.vDict [("value", kv.2)]) else kv)

/-- Model of the `GetItem` trading call response. -/
def Market.getItem (m : Market) (listing_id : String) : Dict :=
  match storeLookup m.store listing_id with
  | some item => [("Ack", .vStr "Success"), ("Item", .vDict (marketItemView listing_id item))]
  | none => [("Ack", .vStr "Failure"), ("Errors", .vStr "Item not found")]

/-- Embedding of `EbayService.create_listing` (`ebay_service.py` lines
43-98): build the `AddItem` request (any `KeyError` is re-raised by the outer
except as `Failed to create listing: ...`), execute it against the
marketplace, check the `Ack` flag, and return
`{listing_id, listing_url, fees}` or raise. The effect list records whether
the marketplace call was reached. -/
def svcCreateListing (m : Market) (listing_data : Dict) :
    Except String Dict × Market × List Effect :=
  match buildItem listing_data with
  | .error e => (.error ("Failed to create listing: " ++ e), m, [])
  | .ok item =>
      let step := m.addItem item
      let m2 := step.1
      let resp := step.2
      let eff := [Effect.marketplaceCreate item]
      match dlookup resp "Ack" with
      | some (.vStr "Success") =>
          match dlookup resp "ItemID" with
          | some (.vStr itemId) =>
              (.ok [("listing_id", .vStr itemId),
                    ("listing_url", .vStr ("https://www.ebay.com/itm/" ++ itemId)),
                    ("fees", dgetD resp "Fees" (.vDict []))], m2, eff)
          | _ => (.error "Failed to create listing: KeyError: ItemID", m2, eff)
      | _ =>
          (.error ("Failed to create listing: eBay API error: "
                    ++ pyStr (dgetD resp "Errors" (.vStr "Unknown error"))), m2, eff)

/-- Embedding of `_parse_listing` (`ebay_service.py` lines 302-318), the
eBay-item-to-internal-format field mapping, including the
`float(item.get('StartPrice', {}).get('value', 0))` and
`int(item.get('Quantity', 0))` conversions. -/
def parseListing (item : Dict) : Except String Dict := do
  let price ← pyFloat (pyGetD (dgetD item "StartPrice" (.vDict [])) "value" (.vInt 0))
  let quantity ← pyInt (dgetD item "Quantity" (.vInt 0))
  .ok [("listing_id", dgetD item "ItemID" .vNull),
       ("title", dgetD item "Title" .vNull),
       ("description", dgetD item "Description" .vNull),
       ("price", .vRat price),
       ("quantity", .vInt quantity),
       ("category_id", pyGetD (dgetD item "PrimaryCategory" (.vDict [])) "CategoryID" .vNull),
       ("condition", dgetD item "ConditionDisplayName" .vNull),
       ("images", pyGetD (dgetD item "PictureDetails" (.vDict [])) "PictureURL" (.vList [])),
       ("status", pyGetD (dgetD item "SellingStatus" (.vDict [])) "ListingStatus" .vNull),
       ("views", dgetD item "HitCount" (.vInt 0)),
       ("watchers", dgetD item "WatchCount" (.vInt 0)),
       ("listed_at", pyGetD (dgetD item "ListingDetails" (.vDict [])) "StartTime" .vNull),
       ("ends_at", pyGetD (dgetD item "ListingDetails" (.vDict [])) "EndTime" .vNull)]

/-- Embedding of `EbayService.get_listing` (`ebay_service.py` lines 140-157):
execute `GetItem`, check the `Ack` flag, and parse the returned item. -/
def svcGetListing (m : Market) (listing_id : String) : Except String Dict :=
  let resp := m.getItem listing_id
  match dlookup resp "Ack" with
  | some (.vStr "Success") =>
      match dlookup resp "Item" with
      | some (.vDict item) => parseListing item
      | _ => .error "Failed to get listing: KeyError: Item"
  | _ =>
      .error ("Failed to get listing: eBay API error: "
               ++ pyStr (dgetD resp "Errors" (.vStr "Unknown error")))

/-! ## Persistence layer (`models/database.py`, `services/database_service.py`) -/

/-- A database row of the `listings` table, embedded as a total map from
attribute name to stored value (unset columns hold `vNull`). -/
def ListingRow := String → Value

/-- The attributes of the ORM `Listing` class (`models/database.py` lines
23-52): the mapped columns plus the two declared relationships. (Python
`hasattr` would additionally admit inherited ORM machinery attributes; no
update dict in the system carries such keys.) -/
def listingAttrs : List String :=
  ["id", "ebay_listing_id", "user_id", "title", "description", "price", "quantity",
   "category_id", "condition", "status", "images", "item_specifics", "shipping_options",
   "views", "watchers", "sold_quantity", "created_at", "updated_at", "listed_at", "ends_at",
   "user", "analytics"]

/-- Embedding of `DatabaseService.store_listing` (`database_service.py` lines
62-83): constructs a `Listing` row from `listing_data` — optional fields via
`.get`, the six mandatory subscripts raising `KeyError` when absent, in the
order the constructor arguments are evaluated — sets `status` to the literal
string `active` and `listed_at` to `datetime.utcnow()` (the `now` argument),
and appends the committed row. -/
def storeListing (db : List ListingRow) (listing_data : Dict) (now : Value) :
    Except String (List ListingRow × ListingRow) := do
  let title ← dgetE listing_data "title"
  let description ← dgetE listing_data "description"
  let price ← dgetE listing_data "price"
  let quantity ← dgetE listing_data "quantity"
  let category_id ← dgetE listing_data "category_id"
  let condition ← dgetE listing_data "condition"
  let row : ListingRow := fun k =>
    if k = "ebay_listing_id" then dgetD listing_data "listing_id" .vNull
    else if k = "user_id" then dgetD listing_data "user_id" .vNull
    else if k = "title" then title
    else if k = "description" then description
    else if k = "price" then price
    else if k = "quantity" then quantity
    else if k = "category_id" then category_id
    else if k = "condition" then condition
    else if k = "status" then .vStr "active"
    else if k = "images" then dgetD listing_data "images" (.vList [])
    else if k = "item_specifics" then dgetD listing_data "item_specifics" (.vDict [])
    else if k = "shipping_options" then dgetD listing_data "shipping_options" (.vList [])
    else if k = "listed_at" then now
    else .vNull
  .ok (db ++ [row], row)

/-- Equality test between a stored column value and a query string, the
embedding of the SQL comparison `column == listing_id`. -/
def isStrVal (v : Value) (s : String) : Bool :=
  match v with
  | .vStr t => t == s
  | _ => false

/-- The `or_(Listing.id == listing_id, Listing.ebay_listing_id == listing_id)`
filter of `update_listing` and `delete_listing`. -/
def rowMatches (listing_id : String) (r : ListingRow) : Bool :=
  isStrVal (r "id") listing_id || isStrVal (r "ebay_listing_id") listing_id

/-- One `setattr(listing, key, value)` guarded by `hasattr(listing, key)`
(`database_service.py` lines 99-101): keys that are not Listing attributes
are silently skipped. -/
def setattrIfHas (r : ListingRow) (k : String) (v : Value) : ListingRow :=
  if listingAttrs.contains k then (fun k2 => if k2 = k then v else r k2) else r

/-- The `for key, value in updates.items()` loop of
`DatabaseService.update_listing`. -/
def applyUpdates (r : ListingRow) (updates : Dict) : ListingRow :=
  updates.foldl (fun acc kv => setattrIfHas acc kv.1 kv.2) r

/-- Embedding of `DatabaseService.update_listing` (`database_service.py`
lines 85-107): select the row whose primary id or marketplace listing id
equals `listing_id` (`scalar_one_or_none` returns `None` for no match and
raises for more than one), apply the update dict via the guarded setattr
loop, stamp `updated_at` with `datetime.utcnow()` (the `now` argument),
commit, and return the row (or `None`, leaving the database unchanged). -/
def dbUpdateListing (db : List ListingRow) (listing_id : String) (updates : Dict)
    (now : Value) : Except String (Option ListingRow × List ListingRow) :=
  match db.filter (fun r => rowMatches listing_id r) with
  | [] => .ok (none, db)
  | [row] =>
      let row2 : ListingRow :=
        fun k => if k = "updated_at" then now else applyUpdates row updates k
      .ok (some row2, db.map (fun r => if rowMatches listing_id r then row2 else r))
  | _ :: _ :: _ => .error "MultipleResultsFound"

/-! ## Agent create-listing handler (`ebay_agent.create_listing`) and the
HTTP payload boundary (`main.py /api/listings`) -/

/-- The observable outcome of one agent tool invocation: the returned
envelope dict plus the marketplace state, database state and effect trace. -/
structure AgentOutcome where
  result : Dict
  market : Market
  db : List ListingRow
  effects : List Effect

/-- Embedding of the `create_listing` tool handler (`ebay_agent.py` lines
60-82): `_validate_listing` returns its argument unchanged; the eBay service
is called with `validated.dict()`; the marketplace result dict (only
`{listing_id, listing_url, fees}`) is then passed to
`db_service.store_listing`; any exception anywhere in the body is caught and
converted to the failure envelope, with side effects already performed kept. -/
def agentCreateListing (m : Market) (db : List ListingRow) (now : Value)
    (details : ListingPayload) : AgentOutcome :=
  match svcCreateListing m details.toDict with
  | (.error e, m2, eff) => ⟨failEnvelope e "Failed to create listing", m2, db, eff⟩
  | (.ok result, m2, eff) =>
      match storeListing db result now with
      | .error e => ⟨failEnvelope e "Failed to create listing", m2, db, eff⟩
      | .ok (db2, _) =>
          match dlookup result "listing_id", dlookup result "listing_url" with
          | some lid, some url =>
              ⟨[("success", .vBool true), ("listing_id", lid), ("url", url),
                ("message", .vStr "Listing created successfully")],
               m2, db2, eff ++ [Effect.dbStore result]⟩
          | _, _ =>
              ⟨failEnvelope "KeyError" "Failed to create listing",
               m2, db2, eff ++ [Effect.dbStore result]⟩

/-- The observable outcome of one HTTP request. -/
structure EndpointOutcome where
  response : Except String Dict
  market : Market
  db : List ListingRow
  effects : List Effect

/-- Embedding of `POST /api/listings` (`main.py` lines 92-107): FastAPI
validates the body against `ListingCreate` before the route body runs —
a validation failure is a 422 rejection with no handler call and no side
effect — then the route invokes the agent create-listing tool and maps a
`success == False` envelope to an HTTP error response. -/
def createListingEndpoint (m : Market) (db : List ListingRow) (now : Value)
    (payload : ListingPayload) : EndpointOutcome :=
  match validateListingCreate payload with
  | .error e => ⟨.error ("422 Unprocessable Entity: " ++ e), m, db, []⟩
  | .ok details =>
      let out := agentCreateListing m db now details
      match dlookup out.result "success" with
      | some (.vBool true) => ⟨.ok out.result, out.market, out.db, out.effects⟩
      | _ => ⟨.error "HTTPException", out.market, out.db, out.effects⟩

/-! ## Concrete instances used by closed theorems -/

/-- An empty marketplace that accepts creations and will assign item id
`110011`. -/
def market0 : Market := ⟨[], "110011", true⟩

/-- The request item a creation flow stores at the marketplace, recovered
from the adapter; used to state the create/get round trip. -/
def itemOf (p : ListingPayload) : Dict :=
  match buildItem p.toDict with
  | .ok it => it
  | .error _ => []

/-- The listing-creation payload of the spec scenario: title Vintage Camera,
price 49.99, quantity 1, category 625. -/
def vintageCamera : ListingPayload :=
  { title := "Vintage Camera", description := "A vintage camera", price := (49.99 : Rat),
    quantity := 1, category_id := "625", condition := "New",
    images := [], item_specifics := [], shipping_options := [] }

/-- The same payload with an invalid price of 0. -/
def priceZeroCamera : ListingPayload :=
  { title := "Vintage Camera", description := "A vintage camera", price := 0,
    quantity := 1, category_id := "625", condition := "New",
    images := [], item_specifics := [], shipping_options := [] }

/-- A marketplace-update oracle that raises exactly on listing id 102. -/
def failSecond : String → Except String Value :=
  fun listing_id =>
    if listing_id = "102" then .error "eBay API error: boom" else .ok .vNull

/-- A one-row database: the row with primary id L1 and title Old. -/
def row0 : ListingRow :=
  fun k => if k = "id" then .vStr "L1" else if k = "title" then .vStr "Old" else .vNull

/-- An update dict carrying one real column and one key that is not a
Listing attribute. -/
def upd0 : Dict := [("title", .vStr "New"), ("bogus", .vStr "X")]

/-! ## Helper lemmas -/

/-- Every per-id entry of the bulk-update loop carries its listing id. -/
lemma entryListingId_bulkItemResult (listing_id : String) (r : Except String Value) :
    entryListingId (bulkItemResult listing_id r) = some listing_id := by
  cases r <;> rfl

/-- Mapping any per-id entry builder over an id list and reading the ids back
recovers the id list. -/
lemma map_entryListingId (ids : List String) (f : String → Value)
    (hf : ∀ i, entryListingId (f i) = some i) :
    (ids.map f).map entryListingId = ids.map some := by
  induction ids with
  | nil => rfl
  | cons i rest ih => simp [hf, ih]

/-- The success count of a bulk update never exceeds the number of ids. -/
lemma succCount_le (ids : List String) (upd : String → Except String Value) :
    succCount ids upd ≤ ids.length := by
  have h := List.countP_le_length (p := entrySuccess) (l := bulkResults ids upd)
  unfold succCount
  unfold bulkResults at h ⊢
  simpa using h

/-- Creating against an accepting marketplace succeeds and returns the
assigned item id. -/
lemma svcCreate_accepting (store : List (String × Dict)) (nid : String) (p : ListingPayload) :
    svcCreateListing ⟨store, nid, true⟩ p.toDict =
      (.ok [("listing_id", .vStr nid),
            ("listing_url", .vStr ("https://www.ebay.com/itm/" ++ nid)),
            ("fees", .vDict [])],
       ⟨(nid, itemOf p) :: store, nid ++ "0", true⟩,
       [Effect.marketplaceCreate (itemOf p)]) := rfl

/-- The marketplace store serves the most recently stored item for an id. -/
lemma storeLookup_cons_self (rest : List (String × Dict)) (k : String) (v : Dict) :
    storeLookup ((k, v) :: rest) k = some v := by
  simp [storeLookup]

/-- A key absent from a dict has no binding. -/
lemma dlookup_eq_none_of_not_mem_keys (u : Dict) (k : String)
    (h : k ∉ u.map Prod.fst) : dlookup u k = none := by
  induction u with
  | nil => rfl
  | cons kv rest ih =>
      simp only [List.map_cons, List.mem_cons] at h
      push_neg at h
      simp only [dlookup]
      rw [if_neg (fun he => h.1 he.symm)]
      exact ih h.2

/-- The guarded setattr loop leaves keys outside the update dict unchanged. -/
lemma applyUpdates_lookup_none (u : Dict) (r : ListingRow) (k : String)
    (h : dlookup u k = none) : applyUpdates r u k = r k := by
  induction u generalizing r with
  | nil => rfl
  | cons kv rest ih =>
      simp only [dlookup] at h
      by_cases hk : kv.1 = k
      · rw [if_pos hk] at h; exact absurd h (by simp)
      · rw [if_neg hk] at h
        show applyUpdates (setattrIfHas r kv.1 kv.2) rest k = r k
        rw [ih _ h]
        unfold setattrIfHas
        by_cases hc : listingAttrs.contains kv.1
        · rw [if_pos hc]; exact if_neg (fun he => hk he.symm)
        · rw [if_neg hc]

/-- The guarded setattr loop leaves non-attribute keys unchanged. -/
lemma applyUpdates_not_attr (u : Dict) (r : ListingRow) (k : String)
    (h : listingAttrs.contains k = false) : applyUpdates r u k = r k := by
  induction u generalizing r with
  | nil => rfl
  | cons kv rest ih =>
      show applyUpdates (setattrIfHas r kv.1 kv.2) rest k = r k
      rw [ih]
      unfold setattrIfHas
      by_cases hc : listingAttrs.contains kv.1
      · rw [if_pos hc]
        refine if_neg (fun he => ?_)
        rw [he] at h
        rw [h] at hc
        exact Bool.noConfusion hc
      · rw [if_neg hc]

/-- The guarded setattr loop writes the bound value of every attribute key of
a duplicate-free update dict. -/
lemma applyUpdates_lookup_some (u : Dict) (r : ListingRow) (k : String) (v : Value)
    (hnodup : (u.map Prod.fst).Nodup) (h : dlookup u k = some v)
    (hattr : listingAttrs.contains k = true) : applyUpdates r u k = v := by
  induction u generalizing r with
  | nil => exact absurd h (by simp [dlookup])
  | cons kv rest ih =>
      simp only [List.map_cons, List.nodup_cons] at hnodup
      simp only [dlookup] at h
      by_cases hk : kv.1 = k
      · rw [if_pos hk] at h
        injection h with h
        subst h
        show applyUpdates (setattrIfHas r kv.1 kv.2) rest k = kv.2
        have hnone : dlookup rest k = none :=
          dlookup_eq_none_of_not_mem_keys rest k (hk ▸ hnodup.1)
        rw [applyUpdates_lookup_none rest _ k hnone]
        unfold setattrIfHas
        rw [hk, if_pos hattr]
        simp
      · rw [if_neg hk] at h
        exact ih (setattrIfHas r kv.1 kv.2) hnodup.2 h

/-! ## Claim theorems -/

/-- Claim C1 (amended): the agent bulk_update report carries total,
successful and failed with successful + failed = total = the number of input
ids, and its per-id result list lists exactly the input ids in order; the MCP
bulk_operations handler reports the same total and per-id lists for the
delete and relist operations, but
its report carries no successful and no failed field. -/
theorem bulk_reports (ids : List String) (upd : String → Except String Value) :
    dlookup (bulkUpdate ids upd) "total" = some (.vInt ids.length) ∧
    dlookup (bulkUpdate ids upd) "successful" = some (.vInt (succCount ids upd)) ∧
    dlookup (bulkUpdate ids upd) "failed" = some (.vInt (ids.length - succCount ids upd)) ∧
    succCount ids upd + (ids.length - succCount ids upd) = ids.length ∧
    (resultEntries (bulkUpdate ids upd)).map entryListingId = ids.map some ∧
    dlookup (bulkOperations "delete" ids upd) "total" = some (.vInt ids.length) ∧
    dlookup (bulkOperations "delete" ids upd) "successful" = none ∧
    dlookup (bulkOperations "delete" ids upd) "failed" = none ∧
    (resultEntries (bulkOperations "delete" ids upd)).map entryListingId = ids.map some ∧
    dlookup (bulkOperations "relist" ids upd) "successful" = none ∧
    dlookup (bulkOperations "relist" ids upd) "failed" = none ∧
    (resultEntries (bulkOperations "relist" ids upd)).map entryListingId = ids.map some := by
  refine ⟨rfl, rfl, rfl, ?_, ?_, rfl, rfl, rfl, ?_, rfl, rfl, ?_⟩
  · exact Nat.add_sub_cancel' (succCount_le ids upd)
  · exact map_entryListingId ids _ (fun i => entryListingId_bulkItemResult i (upd i))
  · exact map_entryListingId ids _ (fun i => rfl)
  · exact map_entryListingId ids _ (fun i => rfl)

/-- Claim C1 counterexample: a bulk delete over one id — a bulk operation
over a list of listing ids — returns a result dict with no successful and no
failed field, contradicting the claim that every bulk operation reports
both. -/
theorem bulk_operations_delete_missing_counts :
    dlookup (bulkOperations "delete" ["a"] (fun _ => .ok .vNull)) "successful" = none ∧
    dlookup (bulkOperations "delete" ["a"] (fun _ => .ok .vNull)) "failed" = none := ⟨rfl, rfl⟩

/-- Claim C2: dispatching a tool name outside the registered tool table
always yields a structured error ToolResult — is_error set, the error text
naming the unknown tool — and handle_call_tool, being total, never lets the
raised ValueError escape to its caller. -/
theorem handle_call_tool_unknown (env : HandlerEnv) (ts : String) (request : CallToolRequest)
    (h : request.name ∉ registeredToolNames) :
    handleCallTool env ts request =
      { content := .vDict [("error", .vStr ("Unknown tool: " ++ request.name)),
                           ("tool", .vStr request.name),
                           ("timestamp", .vStr ts)],
        is_error := true } := by
  simp only [registeredToolNames, List.mem_cons, List.not_mem_nil, or_false] at h
  push_neg at h
  obtain ⟨h1, h2, h3, h4, h5, h6, h7⟩ := h
  simp [handleCallTool, h1, h2, h3, h4, h5, h6, h7]

/-- Claim C2 witness: the name frobnicate is unregistered, and dispatching it
returns the structured unknown-tool error result. -/
theorem handle_call_tool_unknown_witness :
    ("frobnicate" ∉ registeredToolNames) ∧
    handleCallTool trivialEnv "t0" ⟨"frobnicate", []⟩ =
      { content := .vDict [("error", .vStr ("Unknown tool: " ++ "frobnicate")),
                           ("tool", .vStr "frobnicate"),
                           ("timestamp", .vStr "t0")],
        is_error := true } :=
  ⟨by decide, handle_call_tool_unknown trivialEnv "t0" ⟨"frobnicate", []⟩ (by decide)⟩

/-- Claim C3 counterexample: the ai_assistant tool handler, on a well-formed
input, returns a dict with neither a success key nor a message key,
contradicting the claim that every tool handler returns the
success/message envelope. -/
theorem ai_assistant_no_envelope :
    aiAssistant (fun _ => .ok "hi") "t0" [("query", .vStr "help")] =
      .ok [("query", .vStr "help"), ("response", .vStr "hi"), ("timestamp", .vStr "t0")] ∧
    dlookup [("query", .vStr "help"), ("response", .vStr "hi"), ("timestamp", .vStr "t0")]
      "success" = none ∧
    dlookup [("query", .vStr "help"), ("response", .vStr "hi"), ("timestamp", .vStr "t0")]
      "message" = none := ⟨rfl, rfl, rfl⟩

/-- Claim C3 (amended): the agent-facade create_listing handler always
returns the uniform envelope — here, because storing always fails (see the
C8 theorem), always the failure envelope {success: False, error, message} —
while the MCP server ai_assistant handler returns a tool-specific dict
with no success and no message key, its exceptions being caught one level
up in handle_call_tool instead of at the handler boundary. -/
theorem handler_envelope_shapes :
    (∀ (m : Market) (db : List ListingRow) (now : Value) (details : ListingPayload),
       ∃ e, (agentCreateListing m db now details).result =
         failEnvelope e "Failed to create listing") ∧
    (aiAssistant (fun _ => .ok "pong") "t1" [("query", .vStr "status")] =
       .ok [("query", .vStr "status"), ("response", .vStr "pong"), ("timestamp", .vStr "t1")]) ∧
    dlookup [("query", .vStr "status"), ("response", .vStr "pong"), ("timestamp", .vStr "t1")]
      "success" = none ∧
    dlookup [("query", .vStr "status"), ("response", .vStr "pong"), ("timestamp", .vStr "t1")]
      "message" = none := by
  refine ⟨?_, rfl, rfl, rfl⟩
  intro m db now details
  rcases m with ⟨store, nid, acc⟩
  cases acc
  · exact ⟨_, rfl⟩
  · exact ⟨_, rfl⟩

/-- Claim C4: a creation payload with price ≤ 0 or quantity < 0 fails both
the ListingCreate boundary validation and the agent-side ListingDetails
validation, so the endpoint rejects it with an error response, performs no
effect — in particular no marketplace create — and leaves the marketplace
and database untouched. -/
theorem reject_invalid_payload (m : Market) (db : List ListingRow) (now : Value)
    (p : ListingPayload) (h : p.price ≤ 0 ∨ p.quantity < 0) :
    (∃ e, validateListingCreate p = .error e) ∧
    (∃ e, validateListingDetails p = .error e) ∧
    (createListingEndpoint m db now p).effects = [] ∧
    (∃ e, (createListingEndpoint m db now p).response = .error e) ∧
    (createListingEndpoint m db now p).market = m ∧
    (createListingEndpoint m db now p).db = db := by
  have hv : ∃ e, validateListingCreate p = .error e := by
    unfold validateListingCreate
    by_cases h1 : p.title.length < 1
    · rw [if_pos h1]; exact ⟨_, rfl⟩
    rw [if_neg h1]
    by_cases h2 : 80 < p.title.length
    · rw [if_pos h2]; exact ⟨_, rfl⟩
    rw [if_neg h2]
    by_cases h3 : p.description.length < 1
    · rw [if_pos h3]; exact ⟨_, rfl⟩
    rw [if_neg h3]
    by_cases h4 : p.price ≤ 0
    · rw [if_pos h4]; exact ⟨_, rfl⟩
    rw [if_neg h4]
    rcases h with h | h
    · exact absurd h h4
    · rw [if_pos h]; exact ⟨_, rfl⟩
  have hd : ∃ e, validateListingDetails p = .error e := by
    unfold validateListingDetails
    by_cases h4 : p.price ≤ 0
    · rw [if_pos h4]; exact ⟨_, rfl⟩
    rw [if_neg h4]
    rcases h with h | h
    · exact absurd h h4
    · rw [if_pos h]; exact ⟨_, rfl⟩
  obtain ⟨e, he⟩ := hv
  refine ⟨⟨e, he⟩, hd, ?_, ?_, ?_, ?_⟩
  · show (createListingEndpoint m db now p).effects = []
    unfold createListingEndpoint
    rw [he]
  · unfold createListingEndpoint
    rw [he]
    exact ⟨_, rfl⟩
  · unfold createListingEndpoint
    rw [he]
  · unfold createListingEndpoint
    rw [he]

/-- Claim C4 witness: the Vintage Camera payload with price 0 is rejected at
the boundary with no marketplace effect. -/
theorem reject_invalid_payload_witness :
    (priceZeroCamera.price ≤ 0 ∨ priceZeroCamera.quantity < 0) ∧
    ((∃ e, validateListingCreate priceZeroCamera = .error e) ∧
     (∃ e, validateListingDetails priceZeroCamera = .error e) ∧
     (createListingEndpoint market0 [] (.vStr "T") priceZeroCamera).effects = [] ∧
     (∃ e, (createListingEndpoint market0 [] (.vStr "T") priceZeroCamera).response = .error e) ∧
     (createListingEndpoint market0 [] (.vStr "T") priceZeroCamera).market = market0 ∧
     (createListingEndpoint market0 [] (.vStr "T") priceZeroCamera).db = []) :=
  ⟨Or.inl le_rfl,
   reject_invalid_payload market0 [] (.vStr "T") priceZeroCamera (Or.inl le_rfl)⟩

/-- Claim C5: the bulk_update loop processes ids sequentially and
independently — the result list over a concatenation splits into the result
lists of the parts, and the entry at every position is exactly the caught
outcome of that id, carrying the id and, on failure, the error string — and
on the 3-id scenario where only the second marketplace call raises, the
report is successful = 2, failed = 1 with the second entry failed and the
other two succeeded. -/
theorem bulk_update_partial_failure :
    (∀ (xs ys : List String) (upd : String → Except String Value),
       bulkResults (xs ++ ys) upd = bulkResults xs upd ++ bulkResults ys upd) ∧
    (∀ (ids : List String) (upd : String → Except String Value) (i : Nat),
       (bulkResults ids upd)[i]? =
         (ids[i]?).map (fun listing_id => bulkItemResult listing_id (upd listing_id))) ∧
    dlookup (bulkUpdate ["101", "102", "103"] failSecond) "successful" = some (.vInt 2) ∧
    dlookup (bulkUpdate ["101", "102", "103"] failSecond) "failed" = some (.vInt 1) ∧
    dlookup (bulkUpdate ["101", "102", "103"] failSecond) "total" = some (.vInt 3) ∧
    resultEntries (bulkUpdate ["101", "102", "103"] failSecond) =
      [.vDict [("listing_id", .vStr "101"), ("success", .vBool true)],
       .vDict [("listing_id", .vStr "102"), ("success", .vBool false),
               ("error", .vStr "eBay API error: boom")],
       .vDict [("listing_id", .vStr "103"), ("success", .vBool true)]] := by
  refine ⟨?_, ?_, rfl, rfl, rfl, rfl⟩
  · intro xs ys upd
    unfold bulkResults
    exact List.map_append _ xs ys
  · intro ids upd i
    unfold bulkResults
    exact List.getElem?_map _ ids i

/-- Claim C6: against an accepting marketplace, creating any listing through
the adapter succeeds with the assigned listing id, and immediately retrieving
that id yields a parsed listing whose title, price and quantity equal the
submitted values. -/
theorem create_then_get_roundtrip (store : List (String × Dict)) (nid : String)
    (p : ListingPayload) :
    ∃ res m2 eff,
      svcCreateListing ⟨store, nid, true⟩ p.toDict = (.ok res, m2, eff) ∧
      dlookup res "listing_id" = some (.vStr nid) ∧
      ∃ got, svcGetListing m2 nid = .ok got ∧
        dlookup got "title" = some (.vStr p.title) ∧
        dlookup got "price" = some (.vRat p.price) ∧
        dlookup got "quantity" = some (.vInt p.quantity) := by
  refine ⟨_, _, _, svcCreate_accepting store nid p, rfl, ?_⟩
  unfold svcGetListing Market.getItem
  rw [storeLookup_cons_self]
  exact ⟨_, rfl, rfl, rfl, rfl⟩

/-- Claim C7: the search merge is exactly marketplace results followed by
local results — lengths add, occurrence counts add (so duplicate ids coming
from both sources are both kept), the handler count field is the sum of the
two lengths, and on the concrete duplicated-id pair both entries appear. -/
theorem merge_is_concatenation :
    (∀ ebay localL : List Dict, mergeListings ebay localL = ebay ++ localL) ∧
    (∀ ebay localL : List Dict,
       (mergeListings ebay localL).length = ebay.length + localL.length) ∧
    (∀ (q : Dict → Bool) (ebay localL : List Dict),
       (mergeListings ebay localL).countP q = ebay.countP q + localL.countP q) ∧
    (∀ ebay localL : List Dict,
       dlookup (agentSearchListings (.ok ebay) (.ok localL)) "count" =
         some (.vInt (ebay.length + localL.length))) ∧
    (∀ ebay localL : List Dict,
       dlookup (agentSearchListings (.ok ebay) (.ok localL)) "listings" =
         some (.vList ((ebay ++ localL).map .vDict))) ∧
    mergeListings [[("listing_id", .vStr "X")]] [[("listing_id", .vStr "X")]] =
      [[("listing_id", .vStr "X")], [("listing_id", .vStr "X")]] := by
  refine ⟨fun _ _ => rfl, ?_, ?_, ?_, fun _ _ => rfl, rfl⟩
  · intro ebay localL
    exact List.length_append ebay localL
  · intro q ebay localL
    exact List.countP_append q ebay localL
  · intro ebay localL
    show some (Value.vInt ((ebay ++ localL).length)) = some (.vInt (ebay.length + localL.length))
    rw [List.length_append, Nat.cast_add]

/-- Claim C8 (code bug): on the spec scenario the marketplace adapter does
return a listing id, but create_listing then passes only the adapter result
dict {listing_id, listing_url, fees} to store_listing, whose mandatory
title subscript raises KeyError, so no row is ever persisted — the
database is unchanged and the handler reports failure instead of the claimed
active row with a non-null listed_at. -/
theorem create_listing_never_persists :
    (svcCreateListing market0 vintageCamera.toDict).1 =
      .ok [("listing_id", .vStr "110011"),
           ("listing_url", .vStr "https://www.ebay.com/itm/110011"),
           ("fees", .vDict [])] ∧
    storeListing []
      [("listing_id", .vStr "110011"),
       ("listing_url", .vStr "https://www.ebay.com/itm/110011"),
       ("fees", .vDict [])] (.vStr "2026-10-12T00:00:00Z") = .error "KeyError: title" ∧
    (agentCreateListing market0 [] (.vStr "2026-10-12T00:00:00Z") vintageCamera).result =
      failEnvelope "KeyError: title" "Failed to create listing" ∧
    (agentCreateListing market0 [] (.vStr "2026-10-12T00:00:00Z") vintageCamera).db = [] :=
  ⟨rfl, rfl, rfl, rfl⟩

/-- Claim C9: for a duplicate-free update dict, update_listing on a database
with exactly one matching row updates that row in place — updated_at is
stamped, every key of the update dict that is a Listing attribute receives
its value, every other attribute and every non-attribute key keeps its prior
value — and with no matching row it returns None and leaves the database
unchanged. -/
theorem dbUpdateListing_frame_effect (db : List ListingRow) (listing_id : String)
    (updates : Dict) (now : Value)
    (hnodup : (updates.map Prod.fst).Nodup) :
    (db.filter (fun r => rowMatches listing_id r) = [] →
       dbUpdateListing db listing_id updates now = .ok (none, db)) ∧
    (∀ row, db.filter (fun r => rowMatches listing_id r) = [row] →
       ∃ row2,
         dbUpdateListing db listing_id updates now =
           .ok (some row2, db.map (fun r => if rowMatches listing_id r then row2 else r)) ∧
         row2 "updated_at" = now ∧
         (∀ k v, dlookup updates k = some v → listingAttrs.contains k = true →
            k ≠ "updated_at" → row2 k = v) ∧
         (∀ k, dlookup updates k = none → k ≠ "updated_at" → row2 k = row k) ∧
         (∀ k, listingAttrs.contains k = false → k ≠ "updated_at" → row2 k = row k)) := by
  constructor
  · intro hf
    unfold dbUpdateListing
    rw [hf]
  · intro row hf
    unfold dbUpdateListing
    rw [hf]
    refine ⟨_, rfl, if_pos rfl, ?_, ?_, ?_⟩
    · intro k v hlk hattr hne
      show (if k = "updated_at" then now else applyUpdates row updates k) = v
      rw [if_neg hne]
      exact applyUpdates_lookup_some updates row k v hnodup hlk hattr
    · intro k hlk hne
      show (if k = "updated_at" then now else applyUpdates row updates k) = row k
      rw [if_neg hne]
      exact applyUpdates_lookup_none updates row k hlk
    · intro k hattr hne
      show (if k = "updated_at" then now else applyUpdates row updates k) = row k
      rw [if_neg hne]
      exact applyUpdates_not_attr updates row k hattr

/-- Claim C9 witness: a one-row database updated with a title and a bogus
key satisfies the frame conditions. -/
theorem dbUpdateListing_frame_effect_witness :
    ((upd0.map Prod.fst).Nodup) ∧
    (([row0].filter (fun r => rowMatches "L1" r) = [] →
        dbUpdateListing [row0] "L1" upd0 (.vStr "T") = .ok (none, [row0])) ∧
     (∀ row, [row0].filter (fun r => rowMatches "L1" r) = [row] →
        ∃ row2,
          dbUpdateListing [row0] "L1" upd0 (.vStr "T") =
            .ok (some row2, [row0].map (fun r => if rowMatches "L1" r then row2 else r)) ∧
          row2 "updated_at" = .vStr "T" ∧
          (∀ k v, dlookup upd0 k = some v → listingAttrs.contains k = true →
             k ≠ "updated_at" → row2 k = v) ∧
          (∀ k, dlookup upd0 k = none → k ≠ "updated_at" → row2 k = row k) ∧
          (∀ k, listingAttrs.contains k = false → k ≠ "updated_at" → row2 k = row k))) :=
  ⟨by decide, dbUpdateListing_frame_effect [row0] "L1" upd0 (.vStr "T") (by decide)⟩

/-- Claim C10: the top-level success flag of bulk_update is true exactly when
at least one per-id result succeeded; over an empty id list, and when every
per-id call fails, the flag is false while the count report is still
produced. -/
theorem bulk_update_success_flag (ids : List String) (upd : String → Except String Value) :
    (dlookup (bulkUpdate ids upd) "success" = some (.vBool true) ↔ 1 ≤ succCount ids upd) ∧
    (∀ u2 : String → Except String Value,
       dlookup (bulkUpdate ([] : List String) u2) "success" = some (.vBool false)) ∧
    dlookup (bulkUpdate ["a", "b"] (fun _ => Except.error "eBay API error")) "success" =
      some (.vBool false) := by
  refine ⟨?_, fun u2 => rfl, rfl⟩
  have hv : dlookup (bulkUpdate ids upd) "success" =
      some (.vBool (decide (0 < succCount ids upd))) := rfl
  rw [hv]
  simp only [Option.some.injEq, Value.vBool.injEq, decide_eq_true_eq]
  exact Iff.rfl
